import Mathlib

/-!
Shallow embedding of the deepresearch-rs core, used to check the
natural-language specification against the code.

Each definition mirrors one Rust item of the repository (the Rust path is
given in its doc comment).  Machine floats (`f32`) are modelled as exact
rationals, machine integers as `Nat`/`Int`, fallible code as `Except`/
`Option`, and the string-keyed `graph_flow::Context` as explicit record
fields for the keys the tasks actually read and write.
-/

namespace DeepResearch

/-! ## Fact-check task (crates/deepresearch-core/src/tasks.rs) -/

/-- `FactCheckSettings` (tasks.rs): the settings handed to `FactCheckTask`.
`min_confidence: f32` is modelled as a rational. -/
structure FactCheckSettings where
  min_confidence : ℚ
  verification_count : Nat
  timeout_ms : Nat
  deriving Repr, DecidableEq

/-- `impl Default for FactCheckSettings` (tasks.rs, lines 22-30):
`{ min_confidence: 0.6, verification_count: 3, timeout_ms: 120 }`. -/
def FactCheckSettings.defaultSettings : FactCheckSettings :=
  { min_confidence := 3 / 5, verification_count := 3, timeout_ms := 120 }

/-- `FactcheckConfig::default_min_confidence` (config.rs): `0.75`.
This is the serde field default of the *configuration-file* struct
`FactcheckConfig`, distinct from `FactCheckSettings::default`. -/
def FactcheckConfig.default_min_confidence : ℚ := 3 / 4

/-- `FactcheckConfig::default_verification_count` (config.rs): `3`. -/
def FactcheckConfig.default_verification_count : Nat := 3

/-- `FactcheckConfig::default_timeout_ms` (config.rs): `20_000`. -/
def FactcheckConfig.default_timeout_ms : Nat := 20000

/-- The context keys written by `FactCheckTask::run` (tasks.rs). -/
structure FactCheckOutput where
  confidence : ℚ
  verified_sources : List String
  passed : Bool
  deriving Repr, DecidableEq

/-- Core of `FactCheckTask::run` (tasks.rs, lines 299-370): takes the
source list read from `analysis.output`, keeps the first
`verification_count` entries as verified, computes coverage and
confidence and the pass verdict.  The latency `sleep` is elided (it does
not touch the context). -/
def factCheckRun (settings : FactCheckSettings) (sources : List String) :
    FactCheckOutput :=
  let verified_sources := sources.take settings.verification_count
  let coverage : ℚ :=
    if sources.isEmpty then 0
    else (verified_sources.length : ℚ) / (sources.length : ℚ)
  let confidence := min (1/2 + coverage * (1/2)) 1
  { confidence := confidence
    verified_sources := verified_sources
    passed := decide (settings.min_confidence ≤ confidence) }

/-- C2 — For every run of the fact-checker task with settings
`(min_confidence, verification_count, timeout_ms)` and source list `S`
read from `analysis.output`: the verified sources are exactly the first
`verification_count` elements of `S`, `coverage = |verified|/|S|` when `S`
is non-empty and `0` otherwise, `factcheck.confidence =
min(1.0, 0.5 + 0.5·coverage)`, and `factcheck.passed =
(confidence ≥ min_confidence)`. -/
theorem factcheck_run_formula (settings : FactCheckSettings)
    (S : List String) :
    (factCheckRun settings S).verified_sources
        = S.take settings.verification_count
    ∧ (factCheckRun settings S).confidence
        = min 1 (1/2 + 1/2 *
            (if S = [] then (0 : ℚ)
             else ((S.take settings.verification_count).length : ℚ)
                    / (S.length : ℚ)))
    ∧ ((factCheckRun settings S).passed = true
        ↔ settings.min_confidence ≤ (factCheckRun settings S).confidence) := by
  refine ⟨rfl, ?_, ?_⟩
  · simp only [factCheckRun, List.isEmpty_iff, min_comm]
    ring_nf
  · simp [factCheckRun]

/-- C8 counterexample — the defaults used when no configuration is
supplied (`FactCheckSettings::default`, tasks.rs lines 22-30) are not
`0.75 / 3 / 20000`: `min_confidence` is `0.6` and `timeout_ms` is `120`. -/
theorem factcheck_default_settings_ne_claimed :
    FactCheckSettings.defaultSettings.min_confidence ≠ 3 / 4
    ∧ FactCheckSettings.defaultSettings.timeout_ms ≠ 20000 := by
  constructor
  · norm_num [FactCheckSettings.defaultSettings]
  · norm_num [FactCheckSettings.defaultSettings]

/-- C8 (amended) — `FactCheckSettings::default` (the settings used by the
workflow when no configuration is supplied) is
`min_confidence = 0.6`, `verification_count = 3`, `timeout_ms = 120`;
the values `0.75 / 3 / 20000` are the field defaults of the
configuration-file struct `FactcheckConfig` (config.rs). -/
theorem factcheck_default_settings_values :
    FactCheckSettings.defaultSettings
        = { min_confidence := 3/5, verification_count := 3, timeout_ms := 120 }
    ∧ FactcheckConfig.default_min_confidence = 3/4
    ∧ FactcheckConfig.default_verification_count = 3
    ∧ FactcheckConfig.default_timeout_ms = 20000 := by
  refine ⟨rfl, rfl, rfl, rfl⟩

/-! ## Strings and paths

Rust string/path operations are modelled on the character list of the
string, with the same semantics: `str::trim().is_empty()` holds exactly
when every character is whitespace, `str::split(sep)` yields
occurrences-plus-one segments, `Path::is_absolute` (unix) means a leading
`/`, and a `Component::ParentDir` is a `/`-separated segment equal to
`..`. -/

/-- Rust `s.trim().is_empty()`: every character of `s` is whitespace. -/
def isBlank (s : String) : Bool := s.data.all (fun c => c.isWhitespace)

/-- Rust `str::split(sep)` on the character list (keeps empty segments). -/
def splitChar (sep : Char) : List Char → List (List Char)
  | [] => [[]]
  | c :: cs =>
    match splitChar sep cs with
    | [] => [[]]
    | h :: t => if c = sep then [] :: h :: t else (c :: h) :: t

/-- The `/`-separated segments of a path string. -/
def pathSegments (p : String) : List (List Char) := splitChar '/' p.data

/-- Rust `Path::is_absolute` on unix: the path starts with `/`. -/
def path_is_absolute (p : String) : Bool :=
  match p.data with
  | [] => false
  | c :: _ => c = '/'

/-- The path has a `Component::ParentDir`: some segment equals `..`. -/
def has_parent_component (p : String) : Bool :=
  (pathSegments p).any (fun seg => seg = ['.', '.'])

/-! ## Sandbox (crates/deepresearch-core/src/sandbox/mod.rs) -/

/-- `ensure_relpath` (sandbox/mod.rs, lines 448-457) as a pass/fail check:
`Ok` exactly when the path is neither absolute nor contains a
parent-directory component. -/
def ensure_relpath (p : String) : Bool :=
  !(path_is_absolute p) && !(has_parent_component p)

/-- `ensure_not_empty` (sandbox/mod.rs, lines 440-446): `Ok` exactly when
`value.trim()` is non-empty. -/
def ensure_not_empty (v : String) : Bool := !(isBlank v)

/-- `SandboxOutputKind` (sandbox/mod.rs). -/
inductive SandboxOutputKind where
  | binary
  | text
  deriving Repr, DecidableEq

/-- `SandboxOutputSpec` (sandbox/mod.rs). -/
structure SandboxOutputSpec where
  path : String
  kind : SandboxOutputKind
  deriving Repr, DecidableEq

/-- `SandboxFile` (sandbox/mod.rs). -/
structure SandboxFile where
  path : String
  contents : List UInt8
  deriving Repr, DecidableEq

/-- `SandboxRequest` (sandbox/mod.rs); `timeout: Duration` is modelled in
milliseconds. -/
structure SandboxRequest where
  script_name : String
  script_contents : String
  args : List String
  files : List SandboxFile
  expected_outputs : List SandboxOutputSpec
  timeout_ms : Nat
  deriving Repr, DecidableEq

/-- `SandboxRequest::validate` (sandbox/mod.rs, lines 72-86) as a
pass/fail check: the script name, every file path and every expected
output path must be relative and traversal-free, and the script contents
must not be blank. -/
def SandboxRequest.validate (r : SandboxRequest) : Bool :=
  ensure_relpath r.script_name
    && ensure_not_empty r.script_contents
    && r.files.all (fun f => ensure_relpath f.path)
    && r.expected_outputs.all (fun spec => ensure_relpath spec.path)

/-- A path violating `ensure_relpath`: absolute, or containing `..`. -/
def pathViolation (p : String) : Bool :=
  path_is_absolute p || has_parent_component p

/-- The externally visible effects of `DockerSandboxRunner::execute_internal`
(sandbox/mod.rs, lines 192-240) up to launching the container:
`request.validate()?` is its first statement, so on a validation failure
no workspace is created, no file is written, and no container process is
launched. -/
inductive SandboxEffect where
  | createWorkspace
  | writeFile (path : String)
  | launchContainer
  deriving Repr, DecidableEq

/-- Effect trace of `execute_internal`: empty when validation fails. -/
def execute_internal_effects (r : SandboxRequest) : List SandboxEffect :=
  if r.validate then
    [SandboxEffect.createWorkspace, SandboxEffect.writeFile r.script_name]
      ++ r.files.map (fun f => SandboxEffect.writeFile f.path)
      ++ [SandboxEffect.launchContainer]
  else []

/-- C4 counterexample — a request whose paths are all relative and
traversal-free and whose script is non-empty (a single space) is rejected
by `SandboxRequest::validate`, because `ensure_not_empty` trims the
script first: the claim's positive direction fails at this input. -/
def blankScriptRequest : SandboxRequest :=
  { script_name := "script.py"
    script_contents := " "
    args := []
    files := []
    expected_outputs := []
    timeout_ms := 60000 }

theorem sandbox_validate_blank_script_counterexample :
    pathViolation blankScriptRequest.script_name = false
    ∧ blankScriptRequest.files = []
    ∧ blankScriptRequest.expected_outputs = []
    ∧ blankScriptRequest.script_contents ≠ ""
    ∧ blankScriptRequest.validate = false := by
  decide

/-- C4 (amended) — For every sandbox execute call whose request has a
`script_name`, any `files[i].path`, or any `expected_outputs[i].path`
that is absolute or contains a parent-directory (`..`) component, or
whose `script_contents` is blank (empty after trimming), execute returns
an input-validation error before any workspace directory is created or
any container process is launched; a request whose paths are all relative
and traversal-free and whose script is non-blank passes validation. -/
theorem sandbox_validate_spec (r : SandboxRequest) :
    ((pathViolation r.script_name = true
        ∨ (∃ f ∈ r.files, pathViolation f.path = true)
        ∨ (∃ s ∈ r.expected_outputs, pathViolation s.path = true)
        ∨ isBlank r.script_contents = true)
      → r.validate = false ∧ execute_internal_effects r = [])
    ∧ ((pathViolation r.script_name = false
        ∧ (∀ f ∈ r.files, pathViolation f.path = false)
        ∧ (∀ s ∈ r.expected_outputs, pathViolation s.path = false)
        ∧ isBlank r.script_contents = false)
      → r.validate = true) := by
  constructor
  · intro h
    have hv : r.validate = false := by
      simp only [SandboxRequest.validate, ensure_relpath, ensure_not_empty,
        pathViolation, Bool.and_eq_false_iff] at h ⊢
      rcases h with h | ⟨f, hf, h⟩ | ⟨s, hs, h⟩ | h
      · rcases Bool.or_eq_true_iff.mp h with h | h
        · exact Or.inl (Or.inl (Or.inl (by simp [h])))
        · exact Or.inl (Or.inl (Or.inl (by simp [h])))
      · refine Or.inl (Or.inr ?_)
        simp only [List.all_eq_false]
        exact ⟨f, hf, by
          rcases Bool.or_eq_true_iff.mp h with h | h <;> simp [h]⟩
      · refine Or.inr ?_
        simp only [List.all_eq_false]
        exact ⟨s, hs, by
          rcases Bool.or_eq_true_iff.mp h with h | h <;> simp [h]⟩
      · exact Or.inl (Or.inl (Or.inr (by simp [h])))
    exact ⟨hv, by simp [execute_internal_effects, hv]⟩
  · rintro ⟨h₁, h₂, h₃, h₄⟩
    simp only [pathViolation, Bool.or_eq_false_iff] at h₁ h₂ h₃
    simp only [SandboxRequest.validate, ensure_relpath, ensure_not_empty,
      Bool.and_eq_true, List.all_eq_true]
    refine ⟨⟨⟨?_, ?_⟩, ?_⟩, ?_⟩
    · simp [h₁.1, h₁.2]
    · simp [h₄]
    · intro f hf
      have := h₂ f hf
      simp [this.1, this.2]
    · intro s hs
      have := h₃ s hs
      simp [this.1, this.2]

/-- C4 witness: a traversal path is rejected with no effects, and a
well-formed request passes validation. -/
def traversalRequest : SandboxRequest :=
  { script_name := "../escape.py"
    script_contents := "print(1)"
    args := []
    files := []
    expected_outputs := []
    timeout_ms := 60000 }

def wellFormedRequest : SandboxRequest :=
  { script_name := "script.py"
    script_contents := "print(1)"
    args := []
    files := [{ path := "data/input.csv", contents := [] }]
    expected_outputs := [{ path := "out.png", kind := SandboxOutputKind.binary }]
    timeout_ms := 60000 }

theorem sandbox_validate_spec_witness :
    (traversalRequest.validate = false
      ∧ execute_internal_effects traversalRequest = [])
    ∧ wellFormedRequest.validate = true := by
  refine ⟨(sandbox_validate_spec traversalRequest).1 (Or.inl (by decide)),
    (sandbox_validate_spec wellFormedRequest).2 ⟨by decide, ?_, ?_, by decide⟩⟩
  · intro f hf
    fin_cases hf
    decide
  · intro s hs
    fin_cases hs
    decide

/-! ## Sandbox outcome classification (sandbox/mod.rs, tasks.rs) -/

/-- `SandboxOutput` (sandbox/mod.rs). -/
structure SandboxOutput where
  spec : SandboxOutputSpec
  bytes : List UInt8
  deriving Repr, DecidableEq

/-- `SandboxResult` (sandbox/mod.rs); `duration: Duration` is modelled in
milliseconds. -/
structure SandboxResult where
  exit_code : Option Int
  stdout : String
  stderr : String
  outputs : List SandboxOutput
  timed_out : Bool
  duration_ms : Nat
  deriving Repr, DecidableEq

/-- `success` in `DockerSandboxRunner::execute_internal` (sandbox/mod.rs,
line 301): `!timed_out && exit_code.unwrap_or(-1) == 0`. -/
def sandbox_success (timed_out : Bool) (exit_code : Option Int) : Bool :=
  !timed_out && decide (exit_code.getD (-1) = 0)

/-- The status label reported by `execute_internal` (sandbox/mod.rs,
lines 316-322). -/
inductive SandboxStatusLabel where
  | timeout
  | success
  | failure
  deriving Repr, DecidableEq

/-- `status_label` in `execute_internal` (sandbox/mod.rs, lines 316-322). -/
def sandbox_status_label (timed_out : Bool) (exit_code : Option Int) :
    SandboxStatusLabel :=
  if timed_out then .timeout
  else if sandbox_success timed_out exit_code then .success
  else .failure

/-- `MathToolStatus` (tasks.rs). -/
inductive MathToolStatus where
  | skipped
  | success
  | timeout
  | failure
  deriving Repr, DecidableEq

/-- `impl Display for MathToolStatus` (tasks.rs, lines 66-76). -/
def MathToolStatus.text : MathToolStatus → String
  | .skipped => "skipped"
  | .success => "success"
  | .timeout => "timeout"
  | .failure => "failure"

/-- `MathToolOutput` (tasks.rs). -/
structure MathToolOutput where
  path : String
  kind : SandboxOutputKind
  bytes : List UInt8
  deriving Repr, DecidableEq

/-- `MathToolResult` (tasks.rs). -/
structure MathToolResult where
  status : MathToolStatus
  exit_code : Option Int
  timed_out : Bool
  duration_ms : Nat
  stdout : String
  stderr : String
  outputs : List MathToolOutput
  deriving Repr, DecidableEq

/-- `impl Default for MathToolResult` (tasks.rs, lines 89-101). -/
def MathToolResult.defaultResult : MathToolResult :=
  { status := .skipped
    exit_code := none
    timed_out := false
    duration_ms := 0
    stdout := ""
    stderr := ""
    outputs := [] }

/-- `MathToolResult::from_sandbox` (tasks.rs, lines 103-133). -/
def MathToolResult.from_sandbox (r : SandboxResult) : MathToolResult :=
  { status :=
      if r.timed_out then .timeout
      else if r.exit_code.getD (-1) = 0 then .success
      else .failure
    exit_code := r.exit_code
    timed_out := r.timed_out
    duration_ms := min r.duration_ms (2 ^ 64 - 1)
    stdout := r.stdout
    stderr := r.stderr
    outputs := r.outputs.map (fun o => ⟨o.spec.path, o.spec.kind, o.bytes⟩) }

/-- The `MathToolStatus` corresponding to a sandbox status label. -/
def mathStatusOfLabel : SandboxStatusLabel → MathToolStatus
  | .timeout => .timeout
  | .success => .success
  | .failure => .failure

/-- C5 — For every completed sandbox execution, the reported status is
`timeout` exactly when `timed_out` is true; otherwise it is `success`
exactly when the exit code is 0; otherwise (nonzero or absent exit code)
it is `failure` — and the `MathToolResult` derived from a `SandboxResult`
applies the same classification. -/
theorem sandbox_outcome_classification (r : SandboxResult) :
    (sandbox_status_label r.timed_out r.exit_code = .timeout
        ↔ r.timed_out = true)
    ∧ (r.timed_out = false →
        (sandbox_status_label r.timed_out r.exit_code = .success
          ↔ r.exit_code = some 0))
    ∧ (r.timed_out = false → r.exit_code ≠ some 0 →
        sandbox_status_label r.timed_out r.exit_code = .failure)
    ∧ (MathToolResult.from_sandbox r).status
        = mathStatusOfLabel (sandbox_status_label r.timed_out r.exit_code) := by
  obtain ⟨code, out, err, outs, t, d⟩ := r
  cases t
  · rcases code with _ | n
    · simp [sandbox_status_label, sandbox_success, mathStatusOfLabel,
        MathToolResult.from_sandbox]
    · by_cases hn : n = 0 <;>
        simp [sandbox_status_label, sandbox_success, mathStatusOfLabel,
          MathToolResult.from_sandbox, hn]
  · simp [sandbox_status_label, sandbox_success, mathStatusOfLabel,
      MathToolResult.from_sandbox]

/-- C5 witness: a concrete non-timed-out run with exit code 0 is
classified as success everywhere. -/
def successResult : SandboxResult :=
  { exit_code := some 0
    stdout := "42"
    stderr := ""
    outputs := []
    timed_out := false
    duration_ms := 12 }

theorem sandbox_outcome_classification_witness :
    (sandbox_status_label successResult.timed_out successResult.exit_code
        = .success)
    ∧ (MathToolResult.from_sandbox successResult).status
        = mathStatusOfLabel
            (sandbox_status_label successResult.timed_out
              successResult.exit_code) := by
  refine ⟨?_, (sandbox_outcome_classification successResult).2.2.2⟩
  exact ((sandbox_outcome_classification successResult).2.1 rfl).mpr rfl

/-! ## Math tool task (tasks.rs) -/

/-- `MathToolRequest` (tasks.rs); `timeout_ms: Option<u64>`. -/
structure MathToolRequest where
  script_name : Option String
  script : String
  args : List String
  files : List SandboxFile
  expected_outputs : List SandboxOutputSpec
  timeout_ms : Option Nat
  deriving Repr, DecidableEq

/-- The `math.*` context keys written by `persist_math_result`
(tasks.rs, lines 136-173). -/
structure MathPersist where
  result : MathToolResult
  status_text : String
  stdout : String
  stderr : String
  exit_code : Option Int
  timed_out : Bool
  duration_ms : Nat
  script_name : Option String
  retry_recommended : Bool
  degradation_note : String
  deriving Repr, DecidableEq

/-- `persist_math_result` (tasks.rs, lines 136-173):
`retry_recommended = (status ∈ {failure, timeout})`; the degradation note
is the fallback message when a retry is recommended and the empty string
(`unwrap_or_default`) otherwise. -/
def persist_math_result (result : MathToolResult)
    (script_name : Option String) : MathPersist :=
  let retry_recommended :=
    match result.status with
    | .failure => true
    | .timeout => true
    | _ => false
  { result := result
    status_text := result.status.text
    stdout := result.stdout
    stderr := result.stderr
    exit_code := result.exit_code
    timed_out := result.timed_out
    duration_ms := result.duration_ms
    script_name := script_name
    retry_recommended := retry_recommended
    degradation_note :=
      if retry_recommended then
        "Math tool " ++ result.status.text
          ++ ". Falling back to non-numeric reasoning."
      else "" }

/-- `NextAction` of a `graph_flow::TaskResult` (the variants used by the
tasks of this repository). -/
inductive NextAction where
  | ContinueAndExecute
  | WaitingForInput
  | terminate
  deriving Repr, DecidableEq

/-- The `SandboxRequest` built by `MathToolTask::run` (tasks.rs, lines
414-425): script name defaults to `math_tool.py`, timeout defaults to the
`SandboxRequest::new` value of 60 seconds unless the request carries one. -/
def mathToolBuildSandboxRequest (q : MathToolRequest) : SandboxRequest :=
  { script_name := q.script_name.getD "math_tool.py"
    script_contents := q.script
    args := q.args
    files := q.files
    expected_outputs := q.expected_outputs
    timeout_ms := q.timeout_ms.getD 60000 }

/-- `MathToolTask::run` (tasks.rs, lines 385-461).  The sandbox executor
is a parameter (`Arc<dyn SandboxExecutor>` in the source); its outcome is
an `Except` so that executor errors are explicit.  Returns the persisted
`math.*` keys and the task's next action. -/
def MathToolTask.run (request : Option MathToolRequest)
    (executor : SandboxRequest → Except String SandboxResult) :
    MathPersist × NextAction :=
  match request with
  | none =>
      (persist_math_result MathToolResult.defaultResult none,
        .ContinueAndExecute)
  | some q =>
      if isBlank q.script then
        (persist_math_result MathToolResult.defaultResult q.script_name,
          .ContinueAndExecute)
      else
        let sreq := mathToolBuildSandboxRequest q
        let result :=
          match executor sreq with
          | .ok sres => MathToolResult.from_sandbox sres
          | .error e =>
              { MathToolResult.defaultResult with
                  status := .failure, stderr := e }
        (persist_math_result result (some sreq.script_name),
          .ContinueAndExecute)

theorem persist_math_retry_iff (result : MathToolResult)
    (name : Option String) :
    ((persist_math_result result name).retry_recommended = true
      ↔ (result.status = .failure ∨ result.status = .timeout)) := by
  cases h : result.status <;> simp [persist_math_result, h]

theorem persist_math_note_iff (result : MathToolResult)
    (name : Option String) :
    ((persist_math_result result name).degradation_note ≠ ""
      ↔ (persist_math_result result name).retry_recommended = true) := by
  cases h : result.status <;>
    simp [persist_math_result, h, MathToolStatus.text]

theorem persist_math_result_result (result : MathToolResult)
    (name : Option String) :
    (persist_math_result result name).result = result := rfl

/-- C6 — For every run of the numeric-tool task: if `math.request` is
absent or its script is blank, the task persists a skipped-status result
and continues the workflow; a sandbox executor error is contained — it is
converted into a failure-status result instead of failing the task; and
in every case the task writes `math.retry_recommended = (status ∈
{failure, timeout})` and writes a non-empty `math.degradation_note`
exactly when retry is recommended, always returning
`ContinueAndExecute`. -/
theorem math_tool_run_spec (request : Option MathToolRequest)
    (executor : SandboxRequest → Except String SandboxResult) :
    (MathToolTask.run request executor).2 = .ContinueAndExecute
    ∧ ((MathToolTask.run request executor).1.retry_recommended = true
        ↔ ((MathToolTask.run request executor).1.result.status = .failure
            ∨ (MathToolTask.run request executor).1.result.status = .timeout))
    ∧ ((MathToolTask.run request executor).1.degradation_note ≠ ""
        ↔ (MathToolTask.run request executor).1.retry_recommended = true)
    ∧ (request = none →
        (MathToolTask.run request executor).1.result.status = .skipped)
    ∧ (∀ q, request = some q → isBlank q.script = true →
        (MathToolTask.run request executor).1.result.status = .skipped)
    ∧ (∀ q e, request = some q → isBlank q.script = false →
        executor (mathToolBuildSandboxRequest q) = .error e →
        (MathToolTask.run request executor).1.result.status = .failure) := by
  have hrun : ∃ result name,
      MathToolTask.run request executor
        = (persist_math_result result name, .ContinueAndExecute) := by
    rcases request with _ | q
    · exact ⟨MathToolResult.defaultResult, none, rfl⟩
    · by_cases hb : isBlank q.script
      · exact ⟨MathToolResult.defaultResult, q.script_name,
          by simp [MathToolTask.run, hb]⟩
      · cases hexec : executor (mathToolBuildSandboxRequest q) with
        | ok sres =>
            exact ⟨MathToolResult.from_sandbox sres,
              some (mathToolBuildSandboxRequest q).script_name,
              by simp [MathToolTask.run, hb, hexec]⟩
        | error e =>
            exact ⟨{ MathToolResult.defaultResult with
                status := .failure, stderr := e },
              some (mathToolBuildSandboxRequest q).script_name,
              by simp [MathToolTask.run, hb, hexec]⟩
  obtain ⟨result, name, hrw⟩ := hrun
  refine ⟨by rw [hrw], ?_, ?_, ?_, ?_, ?_⟩
  · rw [hrw]
    simpa [persist_math_result_result] using persist_math_retry_iff result name
  · rw [hrw]
    exact persist_math_note_iff result name
  · intro h
    subst h
    rfl
  · intro q hq hb
    subst hq
    simp [MathToolTask.run, hb, MathToolResult.defaultResult,
      persist_math_result]
  · intro q e hq hb hexec
    subst hq
    simp [MathToolTask.run, hb, hexec, persist_math_result]

/-- C6 witness: the task contains a concrete executor failure as a
failure-status result, still continuing, with retry recommended and a
non-empty degradation note; and an absent request is skipped. -/
def sampleMathRequest : MathToolRequest :=
  { script_name := none
    script := "print(6*7)"
    args := []
    files := []
    expected_outputs := []
    timeout_ms := some 100 }

def failingExecutor : SandboxRequest → Except String SandboxResult :=
  fun _ => .error "failed to spawn docker process"

theorem math_tool_run_spec_witness :
    (MathToolTask.run (some sampleMathRequest) failingExecutor).1.result.status
        = .failure
    ∧ (MathToolTask.run none failingExecutor).1.result.status = .skipped := by
  refine ⟨(math_tool_run_spec (some sampleMathRequest)
      failingExecutor).2.2.2.2.2 sampleMathRequest
      "failed to spawn docker process" rfl (by decide) rfl,
    (math_tool_run_spec none failingExecutor).2.2.2.1 rfl⟩

/-! ## Retrieval data model and stub retriever
(crates/deepresearch-core/src/memory/mod.rs) -/

/-- `RetrievedDocument` (memory/mod.rs); `score: f32` as a rational. -/
structure RetrievedDocument where
  text : String
  score : ℚ
  source : Option String
  deriving Repr, DecidableEq

/-- `IngestDocument` (memory/mod.rs). -/
structure IngestDocument where
  id : String
  text : String
  source : Option String
  deriving Repr, DecidableEq

/-- `StubRetriever::retrieve` (memory/mod.rs, lines 53-83): the documents
stored for the session (already keyed by session id), truncated to
`limit` with score 1.0 and a stub source fallback, or a single
placeholder with score 0.0 when none are stored. -/
def StubRetriever.retrieve (store : List IngestDocument) (limit : Nat) :
    List RetrievedDocument :=
  if store.isEmpty then
    [{ text := "No indexed documents yet; returning placeholder finding."
       score := 0
       source := none }]
  else
    (store.take limit).map (fun d =>
      { text := d.text
        score := 1
        source := d.source.orElse (fun _ => some "stub://memory") })

/-! ## Research / analyst / critic / terminal tasks (tasks.rs) -/

/-- The `Ok` branch of `ResearchTask::run_retrieval` (tasks.rs, lines
202-229): if every returned document has non-positive score or blank
text, substitute a single placeholder insight with score 0.1 and source
`stub://memory`. -/
def researchFallback (results : List RetrievedDocument) :
    List RetrievedDocument :=
  if results.all (fun doc => decide (doc.score ≤ 0) || isBlank doc.text) then
    [{ text := "Automated placeholder insight. Additional manual review recommended."
       score := 1/10
       source := some "stub://memory" }]
  else results

/-- `ResearchTask::run` (tasks.rs, lines 239-287) over the stub
retriever: writes `research.findings` (document texts) and
`research.sources` (the documents' sources). -/
def ResearchTask.run (store : List IngestDocument) :
    List String × List String :=
  let documents := researchFallback (StubRetriever.retrieve store 5)
  (documents.map (fun d => d.text), documents.filterMap (fun d => d.source))

/-- `AnalystOutput` (tasks.rs). -/
structure AnalystOutput where
  summary : String
  highlight : String
  sources : List String
  deriving Repr, DecidableEq

/-- `AnalystTask::run` (tasks.rs, lines 463-519): builds
`analysis.output` from `research.findings` and `research.sources`. -/
def AnalystTask.run (findings : List String) (sources : List String) :
    AnalystOutput :=
  let summary :=
    if findings.isEmpty then
      "No findings available; analyst requires additional research input"
    else
      "Top insights: " ++ String.intercalate "; " findings
        ++ ". Confidence supported by " ++ toString sources.length
        ++ " sources."
  { summary := summary
    highlight := (findings.head?).getD ""
    sources := sources }

/-- Rust `summary.split('.').count()`: occurrences of `.` plus one. -/
def sentenceCount (s : String) : Nat :=
  (s.data.filter (fun c => c = '.')).length + 1

/-- `CriticTask::run` (tasks.rs, lines 524-604): the `critique.confident`
verdict.  `fact_passed` is read from `factcheck.passed` with
`unwrap_or(true)`. -/
def CriticTask.run (analysis : AnalystOutput) (fact_passed : Option Bool) :
    Bool :=
  fact_passed.getD true
    && decide (2 ≤ sentenceCount analysis.summary)
    && !analysis.sources.isEmpty

/-- The two terminal tasks of the default research graph. -/
inductive TerminalTask where
  | finalize
  | manualReview
  deriving Repr, DecidableEq

/-- The conditional edge after the critic in `build_graph` (workflow.rs,
lines 229-234): the finalizer when
`ctx.get_sync::<bool>("critique.confident").unwrap_or(false)`, otherwise
manual review. -/
def criticConditionalEdge (confident : Option Bool) : TerminalTask :=
  if confident.getD false then .finalize else .manualReview

/-- The `final.requires_manual` value written by each terminal task:
`FinalizeTask::run` (tasks.rs, line 677) writes `false`,
`ManualReviewTask::run` (tasks.rs, line 703) writes `true`. -/
def TerminalTask.requiresManualWrite : TerminalTask → Bool
  | .finalize => false
  | .manualReview => true

/-- The final context of one default-graph session (workflow.rs,
`build_graph` wiring `research → analyst → fact_check → critic` plus the
conditional edge into a terminal task), run over the stub retriever. -/
structure SessionFinalContext where
  findings : List String
  sources : List String
  analysis : AnalystOutput
  factcheck : FactCheckOutput
  confident : Bool
  terminal : TerminalTask
  requires_manual : Bool
  deriving Repr, DecidableEq

/-- One end-to-end run of the default research graph
(`run_research_session_with_report` with `RetrieverChoice::Stub` and no
customizer, workflow.rs): each task's context writes, in graph order. -/
def runDefaultSession (settings : FactCheckSettings)
    (store : List IngestDocument) : SessionFinalContext :=
  let rr := ResearchTask.run store
  let analysis := AnalystTask.run rr.1 rr.2
  let factcheck := factCheckRun settings analysis.sources
  let confident := CriticTask.run analysis (some factcheck.passed)
  let terminal := criticConditionalEdge (some confident)
  { findings := rr.1
    sources := rr.2
    analysis := analysis
    factcheck := factcheck
    confident := confident
    terminal := terminal
    requires_manual := terminal.requiresManualWrite }

theorem edge_requires_manual (b : Bool) :
    (criticConditionalEdge (some b)).requiresManualWrite = !b := by
  cases b <;> rfl

/-- C1 — For every session executed on the default research graph, the
persisted context value `final.requires_manual` is true if and only if
`critique.confident` is false: the conditional edge after the critic
selects the finalizer exactly when `critique.confident` is true (absent
treated as false), the finalizer writes `final.requires_manual = false`,
and manual-review writes `final.requires_manual = true`. -/
theorem requires_manual_iff_not_confident :
    (∀ confident : Option Bool,
      (criticConditionalEdge confident = .finalize
          ↔ confident.getD false = true)
        ∧ (criticConditionalEdge confident).requiresManualWrite
            = !(confident.getD false))
    ∧ TerminalTask.finalize.requiresManualWrite = false
    ∧ TerminalTask.manualReview.requiresManualWrite = true
    ∧ (∀ (settings : FactCheckSettings) (store : List IngestDocument),
        (runDefaultSession settings store).requires_manual
          = !(runDefaultSession settings store).confident) := by
  refine ⟨?_, rfl, rfl, ?_⟩
  · intro c
    rcases c with _ | b
    · simp [criticConditionalEdge, TerminalTask.requiresManualWrite]
    · cases b <;>
        simp [criticConditionalEdge, TerminalTask.requiresManualWrite]
  · intro settings store
    simp only [runDefaultSession]
    exact edge_requires_manual _

theorem research_run_empty :
    ResearchTask.run []
      = (["Automated placeholder insight. Additional manual review recommended."],
          ["stub://memory"]) := by
  have h0 : decide ((0 : ℚ) ≤ 0) = true := by simp
  simp [ResearchTask.run, researchFallback, StubRetriever.retrieve, h0]

theorem analyst_run_placeholder :
    AnalystTask.run
        ["Automated placeholder insight. Additional manual review recommended."]
        ["stub://memory"]
      = { summary := "Top insights: Automated placeholder insight. Additional manual review recommended.. Confidence supported by 1 sources."
          highlight := "Automated placeholder insight. Additional manual review recommended."
          sources := ["stub://memory"] } := by
  decide

theorem critic_run_placeholder (p : Bool) :
    CriticTask.run
        { summary := "Top insights: Automated placeholder insight. Additional manual review recommended.. Confidence supported by 1 sources."
          highlight := "Automated placeholder insight. Additional manual review recommended."
          sources := ["stub://memory"] }
        (some p)
      = p := by
  have hc : decide (2 ≤ sentenceCount
      "Top insights: Automated placeholder insight. Additional manual review recommended.. Confidence supported by 1 sources.") = true := by
    decide
  simp [CriticTask.run, hc]

theorem run_default_session_empty (settings : FactCheckSettings) :
    runDefaultSession settings []
      = { findings := ["Automated placeholder insight. Additional manual review recommended."]
          sources := ["stub://memory"]
          analysis := { summary := "Top insights: Automated placeholder insight. Additional manual review recommended.. Confidence supported by 1 sources."
                        highlight := "Automated placeholder insight. Additional manual review recommended."
                        sources := ["stub://memory"] }
          factcheck := factCheckRun settings ["stub://memory"]
          confident := (factCheckRun settings ["stub://memory"]).passed
          terminal := criticConditionalEdge
              (some (factCheckRun settings ["stub://memory"]).passed)
          requires_manual := (criticConditionalEdge
              (some (factCheckRun settings ["stub://memory"]).passed)).requiresManualWrite } := by
  simp only [runDefaultSession, research_run_empty, analyst_run_placeholder,
    critic_run_placeholder]

theorem factcheck_default_single_source_passed :
    (factCheckRun FactCheckSettings.defaultSettings ["stub://memory"]).passed
      = true := by
  simp only [factCheckRun, FactCheckSettings.defaultSettings,
    List.take, List.length, List.isEmpty, decide_eq_true_eq]
  norm_num

/-- C3 counterexample — with the stub retriever, no documents indexed and
the default fact-check settings, the critic writes
`critique.confident = true` (not false, as claimed): the substituted
placeholder carries the source `stub://memory`, so the analysis source
list is non-empty and fact-check coverage is 1. -/
theorem empty_index_confident_counterexample :
    (runDefaultSession FactCheckSettings.defaultSettings []).confident = true
    ∧ (runDefaultSession FactCheckSettings.defaultSettings
        []).requires_manual = false := by
  rw [run_default_session_empty]
  rw [factcheck_default_single_source_passed]
  exact ⟨rfl, rfl⟩

/-- C3 (amended) — For every session run on the default graph with the
stub retriever and no documents indexed for the session: the retrieval
layer returns a single placeholder document with score 0; the research
task replaces it with a placeholder finding carrying source
`stub://memory`; all downstream tasks of the default graph (analyst,
fact-checker, critic and one terminal task) still run to completion (the
numeric-tool task is not part of the default wiring); and the critic
writes `critique.confident = factcheck.passed`, which is true under the
default fact-check settings. -/
theorem empty_index_session_spec (settings : FactCheckSettings) :
    StubRetriever.retrieve [] 5
      = [{ text := "No indexed documents yet; returning placeholder finding."
           score := 0
           source := none }]
    ∧ (runDefaultSession settings []).findings
        = ["Automated placeholder insight. Additional manual review recommended."]
    ∧ (runDefaultSession settings []).sources = ["stub://memory"]
    ∧ (runDefaultSession settings []).confident
        = (runDefaultSession settings []).factcheck.passed
    ∧ ((runDefaultSession settings []).terminal = TerminalTask.finalize
        ∨ (runDefaultSession settings []).terminal = TerminalTask.manualReview)
    ∧ (runDefaultSession FactCheckSettings.defaultSettings []).confident
        = true := by
  refine ⟨rfl, ?_, ?_, ?_, ?_, ?_⟩
  · rw [run_default_session_empty]
  · rw [run_default_session_empty]
  · rw [run_default_session_empty]
  · rw [run_default_session_empty]
    cases (factCheckRun settings ["stub://memory"]).passed <;>
      simp [criticConditionalEdge]
  · rw [run_default_session_empty, factcheck_default_single_source_passed]

/-! ## Hybrid retriever (crates/deepresearch-core/src/memory/qdrant.rs) -/

/-- A Qdrant search hit after `payload_from_scored` (qdrant.rs): the
dense similarity score and the payload fields. -/
structure ScoredPoint where
  score : ℚ
  text : String
  source : Option String
  keywords : List String
  deriving Repr, DecidableEq

/-- `lexical_boost` (qdrant.rs, lines 112-127).  The query token set is
modelled as a list (the `HashSet` produced by `tokenize`, which holds
each token once). -/
def lexical_boost (query_tokens : List String) (doc_keywords : List String) :
    ℚ :=
  if query_tokens.isEmpty || doc_keywords.isEmpty then 0
  else
    let overlap :=
      (doc_keywords.filter (fun kw => query_tokens.contains kw)).length
    if overlap = 0 then 0
    else (overlap : ℚ) / (query_tokens.length : ℚ)

/-- Insertion into a score-descending list; together with
`sortByScoreDesc` this models the
`documents.sort_by(|a, b| b.score.partial_cmp(&a.score)…)` call of
`HybridRetriever::retrieve` (qdrant.rs, lines 275-279). -/
def insertByScoreDesc (d : RetrievedDocument) :
    List RetrievedDocument → List RetrievedDocument
  | [] => [d]
  | e :: es =>
      if e.score ≤ d.score then d :: e :: es else e :: insertByScoreDesc d es

/-- Sorting by final score, descending. -/
def sortByScoreDesc : List RetrievedDocument → List RetrievedDocument
  | [] => []
  | d :: ds => insertByScoreDesc d (sortByScoreDesc ds)

/-- The scoring/sorting/truncation core of `HybridRetriever::retrieve`
(qdrant.rs, lines 260-280): each hit's final score is its dense score
plus the lexical boost, the result is sorted by final score descending
and truncated to `limit`. -/
def HybridRetriever.retrieveCore (query_tokens : List String)
    (points : List ScoredPoint) (limit : Nat) : List RetrievedDocument :=
  (sortByScoreDesc (points.map (fun p =>
    { text := p.text
      score := p.score + lexical_boost query_tokens p.keywords
      source := p.source }))).take limit

/-- `HybridRetriever::retrieve` (qdrant.rs, lines 214-296) after the
search: the scored documents, or a single placeholder with score 0 when
none remain. -/
def HybridRetriever.retrieve (query_tokens : List String)
    (points : List ScoredPoint) (limit : Nat) : List RetrievedDocument :=
  let documents := HybridRetriever.retrieveCore query_tokens points limit
  if documents.isEmpty then
    [{ text := "No indexed documents matched the query yet; consider ingesting supporting material."
       score := 0
       source := none }]
  else documents

theorem lexical_boost_eq (q ks : List String) :
    lexical_boost q ks
      = ((ks.inter q).length : ℚ) / (q.length : ℚ) := by
  have hI : ks.inter q = ks.filter (fun kw => q.contains kw) := rfl
  rw [hI]
  unfold lexical_boost
  by_cases h1 : (q.isEmpty || ks.isEmpty) = true
  · rw [if_pos h1]
    rcases Bool.or_eq_true_iff.mp h1 with h | h
    · obtain rfl := List.isEmpty_iff.mp h
      simp
    · obtain rfl := List.isEmpty_iff.mp h
      simp
  · rw [if_neg h1]
    show (if (ks.filter (fun kw => q.contains kw)).length = 0 then (0 : ℚ)
        else ((ks.filter (fun kw => q.contains kw)).length : ℚ)
              / (q.length : ℚ)) = _
    by_cases h2 : (ks.filter (fun kw => q.contains kw)).length = 0
    · rw [if_pos h2, h2]
      simp
    · rw [if_neg h2]

theorem lexical_boost_nonneg (q ks : List String) :
    0 ≤ lexical_boost q ks := by
  rw [lexical_boost_eq]
  positivity

theorem mem_insertByScoreDesc {x d : RetrievedDocument}
    {l : List RetrievedDocument} :
    x ∈ insertByScoreDesc d l ↔ x = d ∨ x ∈ l := by
  induction l with
  | nil => simp [insertByScoreDesc]
  | cons e es ih =>
      by_cases h : e.score ≤ d.score
      · simp only [insertByScoreDesc, if_pos h, List.mem_cons]
      · simp only [insertByScoreDesc, if_neg h, List.mem_cons, ih]
        tauto

theorem mem_sortByScoreDesc {x : RetrievedDocument}
    {l : List RetrievedDocument} :
    x ∈ sortByScoreDesc l ↔ x ∈ l := by
  induction l with
  | nil => simp [sortByScoreDesc]
  | cons d ds ih =>
      simp [sortByScoreDesc, mem_insertByScoreDesc, ih]

theorem pairwise_insertByScoreDesc {d : RetrievedDocument}
    {l : List RetrievedDocument}
    (hl : l.Pairwise (fun a b => b.score ≤ a.score)) :
    (insertByScoreDesc d l).Pairwise (fun a b => b.score ≤ a.score) := by
  induction l with
  | nil => simp [insertByScoreDesc]
  | cons e es ih =>
      rcases List.pairwise_cons.mp hl with ⟨he, hes⟩
      by_cases h : e.score ≤ d.score
      · rw [insertByScoreDesc, if_pos h]
        refine List.pairwise_cons.mpr ⟨?_, hl⟩
        intro b hb
        rcases List.mem_cons.mp hb with rfl | hb
        · exact h
        · exact le_trans (he b hb) h
      · rw [insertByScoreDesc, if_neg h]
        refine List.pairwise_cons.mpr ⟨?_, ih hes⟩
        intro b hb
        rcases mem_insertByScoreDesc.mp hb with rfl | hb
        · exact le_of_lt (lt_of_not_le h)
        · exact he b hb

theorem pairwise_sortByScoreDesc (l : List RetrievedDocument) :
    (sortByScoreDesc l).Pairwise (fun a b => b.score ≤ a.score) := by
  induction l with
  | nil => simp [sortByScoreDesc]
  | cons d ds ih => exact pairwise_insertByScoreDesc ih

/-- C7 — For every hybrid retrieve, each returned document's final score
equals its dense similarity score plus the lexical boost
`|query_tokens ∩ doc_keywords| / |query_tokens|`; the boost is always
≥ 0, so every returned document satisfies `score ≥ dense_score`, and
results are sorted by final score descending and truncated to the
requested limit. -/
theorem hybrid_retrieve_spec (query_tokens : List String)
    (points : List ScoredPoint) (limit : Nat) :
    (∀ ks, lexical_boost query_tokens ks
        = ((ks.inter query_tokens).length : ℚ) / (query_tokens.length : ℚ))
    ∧ (∀ ks, 0 ≤ lexical_boost query_tokens ks)
    ∧ (∀ d ∈ HybridRetriever.retrieveCore query_tokens points limit,
        ∃ p ∈ points,
          d.score = p.score + lexical_boost query_tokens p.keywords
            ∧ p.score ≤ d.score)
    ∧ (HybridRetriever.retrieveCore query_tokens points limit).Pairwise
        (fun a b => b.score ≤ a.score)
    ∧ (HybridRetriever.retrieveCore query_tokens points limit).length
        ≤ limit := by
  refine ⟨fun ks => lexical_boost_eq _ _, fun ks => lexical_boost_nonneg _ _,
    ?_, ?_, ?_⟩
  · intro d hd
    simp only [HybridRetriever.retrieveCore] at hd
    have hd' := List.take_subset _ _ hd
    rcases List.mem_map.mp (mem_sortByScoreDesc.mp hd') with ⟨p, hp, rfl⟩
    exact ⟨p, hp, rfl, le_add_of_nonneg_right (lexical_boost_nonneg _ _)⟩
  · exact (pairwise_sortByScoreDesc _).sublist (List.take_sublist _ _)
  · simp [HybridRetriever.retrieveCore]

/-- C7 witness: a concrete keyword-matching point is returned with its
dense score plus the boost, and at least its dense score. -/
def witnessPoint : ScoredPoint :=
  { score := 1/2
    text := "rust research agents"
    source := some "doc://a"
    keywords := ["rust", "research"] }

theorem hybrid_retrieve_spec_witness :
    ∃ p ∈ [witnessPoint],
      ({ text := "rust research agents"
         score := witnessPoint.score
             + lexical_boost ["rust"] witnessPoint.keywords
         source := some "doc://a" } : RetrievedDocument).score
          = p.score + lexical_boost ["rust"] p.keywords
        ∧ p.score
            ≤ ({ text := "rust research agents"
                 score := witnessPoint.score
                     + lexical_boost ["rust"] witnessPoint.keywords
                 source := some "doc://a" } : RetrievedDocument).score := by
  refine (hybrid_retrieve_spec ["rust"] [witnessPoint] 2).2.2.1 _ ?_
  simp [HybridRetriever.retrieveCore, sortByScoreDesc, insertByScoreDesc,
    witnessPoint]

/-! ## Session service façade (crates/deepresearch-gui/src/state.rs) -/

/-- The record variants of the façade's session index (state.rs,
`SessionRecord`), reduced to their kind. -/
inductive SessionRecordKind where
  | Running
  | Completed
  | Failed
  deriving Repr, DecidableEq

/-- The `SessionService` state observable by `metrics` and
`normalize_session_id` (state.rs, lines 92-121): the admission semaphore's
available permits, the session index, the configured concurrency bound and
namespace, and the `stream_subscribers` atomic counting open event
streams. -/
structure SessionServiceState where
  maxConcurrency : Nat
  availablePermits : Nat
  sessions : List (String × SessionRecordKind)
  streamSubscribers : Nat
  deriving Repr, DecidableEq

/-- `SessionMetrics` (state.rs, lines 463-469): exactly these four
fields. -/
structure SessionMetrics where
  max_concurrency : Nat
  available_permits : Nat
  running_sessions : Nat
  total_sessions : Nat
  deriving Repr, DecidableEq

/-- `SessionService::metrics` (state.rs, lines 356-368). -/
def SessionService.metrics (s : SessionServiceState) : SessionMetrics :=
  { max_concurrency := s.maxConcurrency
    available_permits := s.availablePermits
    running_sessions :=
      (s.sessions.filter
        (fun e => decide (e.2 = SessionRecordKind.Running))).length
    total_sessions := s.sessions.length }

/-- C9 counterexample — two façade states that differ only in the number
of currently open event streams produce the same metrics snapshot: the
snapshot carries no `active_streams` field (it has exactly
`max_concurrency`, `available_permits`, `running_sessions`,
`total_sessions`). -/
def stateNoStreams : SessionServiceState :=
  { maxConcurrency := 4
    availablePermits := 4
    sessions := []
    streamSubscribers := 0 }

def stateFiveStreams : SessionServiceState :=
  { maxConcurrency := 4
    availablePermits := 4
    sessions := []
    streamSubscribers := 5 }

theorem metrics_no_active_streams_counterexample :
    SessionService.metrics stateNoStreams
        = SessionService.metrics stateFiveStreams
    ∧ stateNoStreams.streamSubscribers
        ≠ stateFiveStreams.streamSubscribers := by
  decide

/-- C9 (amended) — the façade's observable metrics snapshot contains
exactly the fields `max_concurrency`, `available_permits`,
`running_sessions` and `total_sessions`; the count of currently open
event streams (`stream_subscribers`) is not part of the snapshot (it is
reported through telemetry events instead). -/
theorem metrics_snapshot_fields :
    (∀ s : SessionServiceState,
      SessionService.metrics s
        = { max_concurrency := s.maxConcurrency
            available_permits := s.availablePermits
            running_sessions :=
              (s.sessions.filter
                (fun e => decide (e.2 = SessionRecordKind.Running))).length
            total_sessions := s.sessions.length })
    ∧ (∀ (s : SessionServiceState) (n : Nat),
        SessionService.metrics { s with streamSubscribers := n }
          = SessionService.metrics s) := by
  exact ⟨fun s => rfl, fun s n => rfl⟩

/-- Rust `str::starts_with` on the character lists. -/
def startsWithStr (s p : String) : Bool := p.data.isPrefixOf s.data

/-- `SessionService::normalize_session_id` (state.rs, lines 370-381),
with the minted `Uuid::new_v4().to_string()` made explicit: the raw id is
the caller-supplied one, or the minted string when none is supplied; with
a namespace configured, the raw id is kept unchanged when it starts with
the namespace and prefixed with `{namespace}::` otherwise. -/
def normalize_session_id (nsOpt : Option String) (raw : String) : String :=
  match nsOpt with
  | some ns => if startsWithStr raw ns then raw else ns ++ "::" ++ raw
  | none => raw

/-- `normalize_session_id` including the `unwrap_or_else` minting step. -/
def normalizeSessionIdWithMint (nsOpt : Option String)
    (sessionId : Option String) (minted : String) : String :=
  normalize_session_id nsOpt (sessionId.getD minted)

/-- C10 counterexample — a minted UUID that happens to start with the
configured namespace is kept unchanged, not prefixed with
`{namespace}::`: under namespace `a`, the minted id
`a1b2c3d4-e5f6-4a7b-8c9d-0e1f2a3b4c5d` is returned as-is, refuting
"every minted UUID gets `{namespace}::` prepended". -/
theorem normalize_minted_uuid_counterexample :
    normalizeSessionIdWithMint (some "a") none
        "a1b2c3d4-e5f6-4a7b-8c9d-0e1f2a3b4c5d"
      = "a1b2c3d4-e5f6-4a7b-8c9d-0e1f2a3b4c5d"
    ∧ normalizeSessionIdWithMint (some "a") none
        "a1b2c3d4-e5f6-4a7b-8c9d-0e1f2a3b4c5d"
      ≠ "a" ++ "::" ++ "a1b2c3d4-e5f6-4a7b-8c9d-0e1f2a3b4c5d" := by
  decide

/-- C10 (amended) — For every `start_session` call on a façade configured
with a namespace: an id (caller-supplied or minted) is used unchanged
whenever it merely starts with the namespace string — no `{namespace}::`
separator is required or enforced (e.g. id `prodX` under namespace `prod`
is kept as-is) — while every id that does not start with the namespace,
supplied or minted, gets `{namespace}::` prepended; with no namespace the
id is used as-is. -/
theorem normalize_session_id_spec :
    (∀ ns raw m, startsWithStr raw ns = true →
        normalizeSessionIdWithMint (some ns) (some raw) m = raw)
    ∧ (∀ ns raw m, startsWithStr raw ns = false →
        normalizeSessionIdWithMint (some ns) (some raw) m
          = ns ++ "::" ++ raw)
    ∧ (∀ ns m, startsWithStr m ns = true →
        normalizeSessionIdWithMint (some ns) none m = m)
    ∧ (∀ ns m, startsWithStr m ns = false →
        normalizeSessionIdWithMint (some ns) none m = ns ++ "::" ++ m)
    ∧ (∀ m, normalizeSessionIdWithMint (some "prod") (some "prodX") m
        = "prodX")
    ∧ (∀ sid m, normalizeSessionIdWithMint none sid m = sid.getD m) := by
  have hprod : startsWithStr "prodX" "prod" = true := by decide
  refine ⟨?_, ?_, ?_, ?_, ?_, ?_⟩
  · intro ns raw m h
    simp [normalizeSessionIdWithMint, normalize_session_id, h]
  · intro ns raw m h
    simp [normalizeSessionIdWithMint, normalize_session_id, h]
  · intro ns m h
    simp [normalizeSessionIdWithMint, normalize_session_id, h]
  · intro ns m h
    simp [normalizeSessionIdWithMint, normalize_session_id, h]
  · intro m
    simp [normalizeSessionIdWithMint, normalize_session_id, hprod]
  · intro sid m
    simp [normalizeSessionIdWithMint, normalize_session_id]

/-- C10 witness: a supplied id not starting with the namespace is
prefixed; `prodX` under `prod` is kept unchanged. -/
theorem normalize_session_id_spec_witness :
    normalizeSessionIdWithMint (some "prod") (some "other") "minted-uuid"
      = "prod" ++ "::" ++ "other"
    ∧ normalizeSessionIdWithMint (some "prod") (some "prodX") "minted-uuid"
      = "prodX" := by
  exact ⟨normalize_session_id_spec.2.1 "prod" "other" "minted-uuid"
      (by decide),
    normalize_session_id_spec.2.2.2.2.1 "minted-uuid"⟩

end DeepResearch
